import Mathlib

/-!
Verification of the alsam-xml codec (osu-cdme/alsam-xml.js).

The repository decodes an ALSAM XML "build layer" document into JavaScript
data structures and re-encodes them.  Decoding operates on a parsed element
tree (the `DOMParser` is an external collaborator), so the shallow embedding
works directly on an element-tree type `Xml`.

Two implementations live in the repository and are both embedded here:
* `alsam-xml.js` — the package's implementation of record (it is the file
  exporting `LoadXML`/`ExportXML`); embedded in namespace `AlsamXml`.
* `src/validation.ts` + `src/index.ts` — a TypeScript rewrite; the parts the
  claims cite are embedded in namespace `AlsamXml.Ts`.

JavaScript keeps every decoded field as the raw text string (`textContent`);
the embeddings therefore use `String` fields, and the JS numeric builtins
`parseInt` / `parseFloat` are modelled explicitly (`parseIntJS`,
`parseFloatJS`).  JS exceptions become `Except String`.
-/
namespace AlsamXml

/-- Element of a parsed markup document: a tag name, the element's own text,
and its child elements in document order. -/
inductive Xml where
  | el (tag : String) (text : String) (children : List Xml)

/-- Tag name of an element (DOM `tagName`). -/
def Xml.tagName : Xml → String
  | .el t _ _ => t
mutual

/-- DOM `textContent`: the concatenated text of the element and all of its
descendants, in document order. -/
def textContent : Xml → String
  | .el _ s cs => s ++ textContentList cs
def textContentList : List Xml → String
  | [] => ""
  | c :: cs => textContent c ++ textContentList cs
end
mutual

/-- DOM `getElementsByTagName`: every proper descendant element with the given
tag name, in document (pre-)order. -/
def elemsByTag (tag : String) : Xml → List Xml
  | .el _ _ cs => elemsByTagList tag cs
def elemsByTagList (tag : String) : List Xml → List Xml
  | [] => []
  | c :: cs =>
      (if c.tagName = tag then [c] else []) ++ elemsByTag tag c ++ elemsByTagList tag cs
end

/-! ### Models of the JavaScript builtins used by the source -/

/-- Maximal leading run of decimal digits of a character list, together with
the rest of the list. -/
def takeDigits : List Char → List Char × List Char
  | [] => ([], [])
  | c :: cs =>
      if c.isDigit then
        let (ds, rest) := takeDigits cs
        (c :: ds, rest)
      else ([], c :: cs)

/-- Numeric value of a list of decimal digits (most significant first). -/
def digitsToNat : List Char → Nat
  | [] => 0
  | c :: cs => digitsToNatAux (c.toNat - '0'.toNat) cs
where
  digitsToNatAux (acc : Nat) : List Char → Nat
    | [] => acc
    | c :: cs => digitsToNatAux (acc * 10 + (c.toNat - '0'.toNat)) cs

/-- JS `parseInt(s)` (radix 10): an optional sign followed by the maximal
leading run of digits; `none` models `NaN`.  (Leading whitespace and other
`parseInt` corner cases do not occur in this codec's inputs.) -/
def parseIntJS (s : String) : Option Int :=
  let (sign, rest) : Int × List Char :=
    match s.data with
    | '+' :: r => (1, r)
    | '-' :: r => (-1, r)
    | r => (1, r)
  let (ds, _) := takeDigits rest
  if ds.isEmpty then none else some (sign * digitsToNat ds)

/-- Exact decimal number `mant / 10 ^ exp`: the value a JS number holds after
parsing a decimal literal of this codec.  (Kept unnormalised so that every
operation is computable by the kernel.) -/
structure DecNum where
  mant : Int
  exp : Nat
deriving DecidableEq

/-- Rational value denoted by a `DecNum`. -/
def DecNum.toRat (d : DecNum) : Rat := (d.mant : Rat) / (10 : Rat) ^ d.exp

/-- JS `parseFloat(s)`: an optional sign, a leading run of digits, and an
optional fractional part; `none` models `NaN`.  (Exponents and leading
whitespace do not occur in this codec's inputs.) -/
def parseFloatJS (s : String) : Option DecNum :=
  let (sign, rest) : Int × List Char :=
    match s.data with
    | '+' :: r => (1, r)
    | '-' :: r => (-1, r)
    | r => (1, r)
  let (intDs, r1) := takeDigits rest
  let fracDs :=
    match r1 with
    | '.' :: r2 => (takeDigits r2).1
    | _ => []
  if intDs.isEmpty ∧ fracDs.isEmpty then none
  else
    some ⟨sign * ((digitsToNat intDs : Int) * (10 : Int) ^ fracDs.length + (digitsToNat fracDs : Int)),
      fracDs.length⟩

/-- Split a character list at every occurrence of `c` (model of splitting a
string for the anchored regexes below). -/
def splitOnChar (c : Char) : List Char → List (List Char)
  | [] => [[]]
  | x :: xs =>
      let r := splitOnChar c xs
      if x = c then [] :: r
      else
        match r with
        | h :: t => (x :: h) :: t
        | [] => [[x]]

/-- Every character is a decimal digit (true on the empty list, matching the
`*` in the source regex). -/
def allDigits (cs : List Char) : Bool := cs.all Char.isDigit

/-- The source regex `isIntegerRegex = /^[0-9]*$/` of `alsam-xml.js`: digits
only, the empty string included, and no sign. -/
def isIntegerStr (s : String) : Bool := allDigits s.data

/-- The source regex `isFloatRegex = /^[+-]?([0-9]*[.])?[0-9]+$/`. -/
def isFloatStr (s : String) : Bool :=
  let cs :=
    match s.data with
    | '+' :: r => r
    | '-' :: r => r
    | r => r
  match splitOnChar '.' cs with
  | [d] => !d.isEmpty && allDigits d
  | [a, b] => allDigits a && !b.isEmpty && allDigits b
  | _ => false

/-- The source date regex `/^\d\x7b4\x7d-\d\x7b2\x7d-\d\x7b2\x7d$/`
(YYYY-MM-DD). -/
def isDateFormat (s : String) : Bool :=
  match splitOnChar '-' s.data with
  | [y, m, d] =>
      y.length = 4 && m.length = 2 && d.length = 2 && allDigits y && allDigits m && allDigits d
  | _ => false

/-- The JS test `parseFloat(s) < 0` (false when `parseFloat` yields `NaN`);
the denoted value is negative exactly when the mantissa is. -/
def floatLtZero (s : String) : Bool :=
  match parseFloatJS s with
  | some d => decide (d.mant < 0)
  | none => false

/-- The JS test `x !== null && parseFloat(x) < 0` for an optional field. -/
def optFloatLtZero : Option String → Bool
  | none => false
  | some s => floatLtZero s

/-- The JS test `parseInt(s) < 0` (false when `parseInt` yields `NaN`). -/
def intLtZero (s : String) : Bool :=
  match parseIntJS s with
  | some n => decide (n < 0)
  | none => false

/-- The JS test `x !== null && parseInt(x) < 0` for an optional field. -/
def optIntLtZero : Option String → Bool
  | none => false
  | some s => intLtZero s

/-- JS coercion of a possibly-`null` string to a string, as performed by
`RegExp.test`: `null` becomes the string `"null"`. -/
def jsStringOrNull : Option String → String
  | some s => s
  | none => "null"

/-! ### Field accessors of `alsam-xml.js` -/

/-- `getOptionalValue(xmlNode, tagName)`: text content of the first descendant
with the given tag, or `null`. -/
def getOptionalValue (xmlNode : Xml) (tagName : String) : Option String :=
  (elemsByTag tagName xmlNode).head?.map textContent

/-- `getMandatoryValue(xmlNode, tagName)`: text content of the first
descendant with the given tag, or a thrown schema error naming the tag. -/
def getMandatoryValue (xmlNode : Xml) (tagName : String) : Except String String :=
  match (elemsByTag tagName xmlNode).head? with
  | some node => .ok (textContent node)
  | none =>
      .error ("INVALID SCHEMA: Mandatory tag " ++ tagName ++
        " not found in XML as child of tag " ++ xmlNode.tagName)

/-! ### Data structures of `alsam-xml.js` (all fields hold raw text) -/
structure Header where
  americaMakesSchemaVersion : String
  layerNum : Option String
  layerThickness : String
  absoluteHeight : Option String
  dosingFactor : Option String
  buildDescription : Option String
deriving DecidableEq
structure VelocityProfile where
  id : String
  velocity : String
  mode : String
  laserOnDelay : String
  laserOffDelay : String
  jumpDelay : String
  markDelay : String
  polygonDelay : String
deriving DecidableEq
structure Wobble where
  «on» : String
  freq : String
  shape : String
  transAmp : String
  longAmp : String
deriving DecidableEq
structure Traveler where
  id : String
  syncDelay : Option String
  power : Option String
  spotSize : Option String
  wobble : Option Wobble
deriving DecidableEq
structure SegmentStyle where
  id : String
  velocityProfileID : String
  laserMode : Option String
  travelers : List Traveler
deriving DecidableEq
structure Segment where
  x1 : String
  y1 : String
  x2 : String
  y2 : String
  segmentID : Option String
  segStyle : String
deriving DecidableEq
structure Path where
  type : String
  tag : String
  numSegments : String
  skyWritingMode : String
  segments : List Segment
deriving DecidableEq
structure Trajectory where
  trajectoryID : String
  pathProcessingMode : String
  path : Option Path
deriving DecidableEq
structure Build where
  header : Header
  segmentStyles : List SegmentStyle
  velocityProfiles : List VelocityProfile
  trajectories : List Trajectory
deriving DecidableEq

/-! ### Decoder of `alsam-xml.js` -/

/-- `getHeader(xmlDoc)` of `alsam-xml.js`: the six field fetches followed by
the date-format, LayerNum, LayerThickness, AbsoluteHeight and DosingFactor
checks, in source order. -/
def getHeader (xmlDoc : Xml) : Except String Header := do
  let americaMakesSchemaVersion ← getMandatoryValue xmlDoc "AmericaMakesSchemaVersion"
  let layerNum := getOptionalValue xmlDoc "LayerNum"
  let layerThickness ← getMandatoryValue xmlDoc "LayerThickness"
  let absoluteHeight := getOptionalValue xmlDoc "AbsoluteHeight"
  let dosingFactor := getOptionalValue xmlDoc "DosingFactor"
  let buildDescription := getOptionalValue xmlDoc "BuildDescription"
  if !isDateFormat americaMakesSchemaVersion then
    .error ("INVALID SCHEMA: Provided AmericaMakesSchemaVersion " ++
      americaMakesSchemaVersion ++ " must be in YYYY-MM-DD format")
  else if optIntLtZero layerNum then
    .error ("INVALID SCHEMA: Provided LayerNum " ++ jsStringOrNull layerNum ++
      " must be an integer more than zero!")
  else if floatLtZero layerThickness then
    .error ("INVALID SCHEMA: Provided LayerThickness " ++ layerThickness ++
      " must be a real number more than zero!")
  else if optFloatLtZero absoluteHeight then
    .error ("INVALID SCHEMA: Provided AbsoluteHeight " ++ jsStringOrNull absoluteHeight ++
      " must be a real number more than zero!")
  else if optFloatLtZero dosingFactor then
    .error ("INVALID SCHEMA: Provided DosingFactor " ++ jsStringOrNull dosingFactor ++
      " must be a real number more than zero!")
  else
    pure ⟨americaMakesSchemaVersion, layerNum, layerThickness, absoluteHeight,
      dosingFactor, buildDescription⟩

/-- Body of the `for (let style of velocityProfiles)` loop of
`getVelocityProfiles`. -/
def getVelocityProfile1 (style : Xml) : Except String VelocityProfile := do
  let id ← getMandatoryValue style "ID"
  let velocity ← getMandatoryValue style "Velocity"
  let mode ← getMandatoryValue style "Mode"
  let laserOnDelay ← getMandatoryValue style "LaserOnDelay"
  let laserOffDelay ← getMandatoryValue style "LaserOffDelay"
  let jumpDelay ← getMandatoryValue style "JumpDelay"
  let markDelay ← getMandatoryValue style "MarkDelay"
  let polygonDelay ← getMandatoryValue style "PolygonDelay"
  if floatLtZero velocity then
    .error ("INVALID SCHEMA: Provided Velocity " ++ velocity ++
      " must be a real number more than zero!")
  else if !(mode = "Delay" ∨ mode = "Auto" : Bool) then
    .error ("INVALID SCHEMA: Provided Mode " ++ mode ++ " must be either 'Delay' or 'Auto'!")
  else
    pure ⟨id, velocity, mode, laserOnDelay, laserOffDelay, jumpDelay, markDelay, polygonDelay⟩

/-- The `for` loop of `getVelocityProfiles`: each profile in order, aborting
on the first thrown error. -/
def velocityProfilesLoop : List Xml → Except String (List VelocityProfile)
  | [] => .ok []
  | s :: rest => do
      let p ← getVelocityProfile1 s
      let ps ← velocityProfilesLoop rest
      pure (p :: ps)
def getVelocityProfiles (xmlDoc : Xml) : Except String (List VelocityProfile) :=
  velocityProfilesLoop (elemsByTag "VelocityProfile" xmlDoc)

/-- The `if (wobble.length > 0)` block of `getSegmentStyles`: the five
mandatory Wobble fields, then the On, Freq and Shape checks, in source
order. -/
def decodeWobble (w : Xml) : Except String Wobble := do
  let «on» ← getMandatoryValue w "On"
  let freq ← getMandatoryValue w "Freq"
  let shape ← getMandatoryValue w "Shape"
  let transAmp ← getMandatoryValue w "TransAmp"
  let longAmp ← getMandatoryValue w "LongAmp"
  if !(parseIntJS «on» = some 0 ∨ parseIntJS «on» = some 1 : Bool) then
    .error ("INVALID SCHEMA: Provided On " ++ «on» ++ " must be either 0 or 1!")
  else if !isIntegerStr freq then
    .error ("INVALID SCHEMA: Provided Freq " ++ freq ++ " must be an integer!")
  else if !(parseIntJS shape = some (-1) ∨ parseIntJS shape = some 0 ∨
      parseIntJS shape = some 1 : Bool) then
    .error ("INVALID SCHEMA: Provided Shape " ++ shape ++ " must be either -1, 0, or 1!")
  else
    pure ⟨«on», freq, shape, transAmp, longAmp⟩

/-- The optional Wobble block at the head of the traveler loop: the first
Wobble descendant is decoded when present, otherwise `wobble = null` without
error. -/
def travelerWobblePart (travelerXML : Xml) : Except String (Option Wobble) :=
  match (elemsByTag "Wobble" travelerXML).head? with
  | some w => do
      let wob ← decodeWobble w
      pure (some wob)
  | none => pure none

/-- Body of the `for (let travelerXML of travelersXML)` loop of
`getSegmentStyles`: optional Wobble block, the Traveler construction, then
the ID, SyncDelay, Power and SpotSize checks, in source order. -/
def decodeTraveler (travelerXML : Xml) : Except String Traveler := do
  let wobble ← travelerWobblePart travelerXML
  let id ← getMandatoryValue travelerXML "ID"
  let syncDelay := getOptionalValue travelerXML "SyncDelay"
  let power := getOptionalValue travelerXML "Power"
  let spotSize := getOptionalValue travelerXML "SpotSize"
  if !isIntegerStr id then
    .error ("INVALID SCHEMA: Provided Traveler ID " ++ id ++ " must be an integer!")
  else if syncDelay.isSome ∧ !isIntegerStr (jsStringOrNull syncDelay) then
    .error ("INVALID SCHEMA: Provided SyncDelay " ++ jsStringOrNull syncDelay ++
      " must be an integer!")
  else if !isFloatStr (jsStringOrNull power) then
    .error ("INVALID SCHEMA: Provided Power " ++ jsStringOrNull power ++
      " must be a real number!")
  else if !isFloatStr (jsStringOrNull spotSize) then
    .error ("INVALID SCHEMA: Provided SpotSize " ++ jsStringOrNull spotSize ++
      " must be a real number!")
  else
    pure ⟨id, syncDelay, power, spotSize, wobble⟩

/-- The traveler `for` loop of `getSegmentStyles`. -/
def travelersLoop : List Xml → Except String (List Traveler)
  | [] => .ok []
  | t :: rest => do
      let tr ← decodeTraveler t
      let trs ← travelersLoop rest
      pure (tr :: trs)

/-- Body of the `for (let style of segmentStyles)` loop of
`getSegmentStyles`: travelers first, then ID / VelocityProfileID / LaserMode
(mandatory only when a traveler exists), then the LaserMode enum check. -/
def decodeSegmentStyle (style : Xml) : Except String SegmentStyle := do
  let travelers ← travelersLoop (elemsByTag "Traveler" style)
  let id ← getMandatoryValue style "ID"
  let velocityProfileID ← getMandatoryValue style "VelocityProfileID"
  let laserMode ←
    if travelers.length ≠ 0 then do
      let lm ← getMandatoryValue style "LaserMode"
      pure (some lm)
    else pure (none : Option String)
  match laserMode with
  | some lm =>
      if !(lm = "Independent" ∨ lm = "FollowMe" : Bool) then
        .error ("INVALID SCHEMA: Provided LaserMode " ++ lm ++
          " must be either 'Independent' or 'FollowMe'!")
      else pure ⟨id, velocityProfileID, laserMode, travelers⟩
  | none => pure ⟨id, velocityProfileID, laserMode, travelers⟩

/-- The segment-style `for` loop. -/
def segmentStylesLoop : List Xml → Except String (List SegmentStyle)
  | [] => .ok []
  | s :: rest => do
      let st ← decodeSegmentStyle s
      let sts ← segmentStylesLoop rest
      pure (st :: sts)
def getSegmentStyles (xmlDoc : Xml) : Except String (List SegmentStyle) :=
  segmentStylesLoop (elemsByTag "SegmentStyle" xmlDoc)

/-- The segment `for` loop of `getTrajectories`: each segment runs from the
cached previous endpoint `(lastX, lastY)` to its own declared X/Y, and the
cache advances after each segment. -/
def segmentsLoop (lastX lastY : String) : List Xml → Except String (List Segment)
  | [] => .ok []
  | segmentXML :: rest => do
      let x2 ← getMandatoryValue segmentXML "X"
      let y2 ← getMandatoryValue segmentXML "Y"
      let segmentID := getOptionalValue segmentXML "SegmentID"
      let segStyle ← getMandatoryValue segmentXML "SegStyle"
      if !(isFloatStr x2 && isFloatStr y2) then
        .error ("INVALID SCHEMA: Provided X and Y values " ++ x2 ++ " and " ++ y2 ++
          " must be real numbers!")
      else do
        let restSegs ← segmentsLoop x2 y2 rest
        pure (⟨lastX, lastY, x2, y2, segmentID, segStyle⟩ :: restSegs)

/-- The `if (paths.length !== 0)` block of `getTrajectories`: only the FIRST
Path element of the trajectory is decoded.  The unguarded accesses
`start.getElementsByTagName("X")[0].textContent` on a missing Start block
are a thrown TypeError in JS, modelled as errors. -/
def decodePath (pathXML : Xml) : Except String Path := do
  let type ← getMandatoryValue pathXML "Type"
  let tag ← getMandatoryValue pathXML "Tag"
  let numSegments ← getMandatoryValue pathXML "NumSegments"
  let skyWritingMode ← getMandatoryValue pathXML "SkyWritingMode"
  if !(type = "hatch" ∨ type = "contour" : Bool) then
    .error ("INVALID SCHEMA: Provided Path type " ++ type ++
      " must be either 'hatch' or 'contour'")
  else if !(skyWritingMode = "0" ∨ skyWritingMode = "1" ∨ skyWritingMode = "2" ∨
      skyWritingMode = "3" : Bool) then
    .error ("INVALID SCHEMA: Provided SkyWritingMode " ++ skyWritingMode ++
      " must be 0, 1, 2, or 3.")
  else
    match (elemsByTag "Start" pathXML).head? with
    | none => .error "TypeError: Start element absent"
    | some start =>
        match (elemsByTag "X" start).head?, (elemsByTag "Y" start).head? with
        | some xEl, some yEl => do
            let segments ← segmentsLoop (textContent xEl) (textContent yEl)
              (elemsByTag "Segment" pathXML)
            pure ⟨type, tag, numSegments, skyWritingMode, segments⟩
        | _, _ => .error "TypeError: Start X or Y element absent"

/-- Body of the trajectory `for` loop: the Path block (first Path only), then
TrajectoryID / PathProcessingMode and the processing-mode enum check. -/
def decodeTrajectory (trajectoryXML : Xml) : Except String Trajectory := do
  let path ←
    match (elemsByTag "Path" trajectoryXML).head? with
    | some pathXML => do
        let p ← decodePath pathXML
        pure (some p)
    | none => pure (none : Option Path)
  let trajectoryID ← getMandatoryValue trajectoryXML "TrajectoryID"
  let pathProcessingMode ← getMandatoryValue trajectoryXML "PathProcessingMode"
  if !(pathProcessingMode = "sequential" ∨ pathProcessingMode = "concurrent" : Bool) then
    .error ("INVALID SCHEMA: Provided PathProcessingMode " ++ pathProcessingMode ++
      " must be either 'sequential' or 'concurrent'")
  else
    pure ⟨trajectoryID, pathProcessingMode, path⟩

/-- The trajectory `for` loop. -/
def trajectoriesLoop : List Xml → Except String (List Trajectory)
  | [] => .ok []
  | t :: rest => do
      let tr ← decodeTrajectory t
      let trs ← trajectoriesLoop rest
      pure (tr :: trs)
def getTrajectories (doc : Xml) : Except String (List Trajectory) :=
  trajectoriesLoop (elemsByTag "Trajectory" doc)

/-- `LoadXML` of `alsam-xml.js`, on the parsed document tree: header, segment
styles, velocity profiles, trajectories, in source order; the first thrown
error aborts the whole decode. -/
def LoadXML (xmlDoc : Xml) : Except String Build := do
  let header ← getHeader xmlDoc
  let segmentStyles ← getSegmentStyles xmlDoc
  let velocityProfiles ← getVelocityProfiles xmlDoc
  let trajectories ← getTrajectories xmlDoc
  pure ⟨header, segmentStyles, velocityProfiles, trajectories⟩

/-! ### Encoder of `alsam-xml.js`

The source encoder builds the output text by string concatenation; `LoadXML`
then reparses that text with the external `DOMParser`.  The embedding keeps
the pipeline inside the element-tree domain: each `Get...String` function is
modelled as the element tree its emitted markup parses to, tag for tag and
in emission order. -/

/-- `GetHeaderString`: the Header block; optional fields are emitted only
when non-null. -/
def GetHeaderXml (build : Build) : Xml :=
  .el "Header" ""
    ([Xml.el "AmericaMakesSchemaVersion" build.header.americaMakesSchemaVersion []]
      ++ (match build.header.layerNum with
          | some v => [Xml.el "LayerNum" v []]
          | none => [])
      ++ [Xml.el "LayerThickness" build.header.layerThickness []]
      ++ (match build.header.absoluteHeight with
          | some v => [Xml.el "AbsoluteHeight" v []]
          | none => [])
      ++ (match build.header.dosingFactor with
          | some v => [Xml.el "DosingFactor" v []]
          | none => [])
      ++ (match build.header.buildDescription with
          | some v => [Xml.el "BuildDescription" v []]
          | none => []))

/-- The Wobble block emitted inside a Traveler. -/
def wobbleXml (w : Wobble) : Xml :=
  .el "Wobble" ""
    [Xml.el "On" w.«on» [], Xml.el "Freq" w.freq [], Xml.el "Shape" w.shape [],
      Xml.el "TransAmp" w.transAmp [], Xml.el "LongAmp" w.longAmp []]

/-- The Traveler block: ID always, the optional fields and the Wobble block
only when non-null. -/
def travelerXml (t : Traveler) : Xml :=
  .el "Traveler" ""
    ([Xml.el "ID" t.id []]
      ++ (match t.syncDelay with
          | some v => [Xml.el "SyncDelay" v []]
          | none => [])
      ++ (match t.power with
          | some v => [Xml.el "Power" v []]
          | none => [])
      ++ (match t.spotSize with
          | some v => [Xml.el "SpotSize" v []]
          | none => [])
      ++ (match t.wobble with
          | some w => [wobbleXml w]
          | none => []))

/-- One SegmentStyle block of `GetSegmentStylesString`. -/
def segmentStyleXml (s : SegmentStyle) : Xml :=
  .el "SegmentStyle" ""
    ([Xml.el "ID" s.id [], Xml.el "VelocityProfileID" s.velocityProfileID []]
      ++ (match s.laserMode with
          | some lm => [Xml.el "LaserMode" lm []]
          | none => [])
      ++ s.travelers.map travelerXml)

/-- `GetSegmentStylesString`: the SegmentStyleList block. -/
def GetSegmentStylesXml (build : Build) : Xml :=
  .el "SegmentStyleList" "" (build.segmentStyles.map segmentStyleXml)

/-- One VelocityProfile block of `GetVelocityProfilesString` (all eight
fields emitted unconditionally). -/
def velocityProfileXml (v : VelocityProfile) : Xml :=
  .el "VelocityProfile" ""
    [Xml.el "ID" v.id [], Xml.el "Velocity" v.velocity [], Xml.el "Mode" v.mode [],
      Xml.el "LaserOnDelay" v.laserOnDelay [], Xml.el "LaserOffDelay" v.laserOffDelay [],
      Xml.el "JumpDelay" v.jumpDelay [], Xml.el "MarkDelay" v.markDelay [],
      Xml.el "PolygonDelay" v.polygonDelay []]

/-- `GetVelocityProfilesString`: the VelocityProfileList block. -/
def GetVelocityProfilesXml (build : Build) : Xml :=
  .el "VelocityProfileList" "" (build.velocityProfiles.map velocityProfileXml)

/-- `ExportXML` of `alsam-xml.js`: header block, segment-style list and
velocity-profile list inside the Layer element.  The trajectory emission is
absent in the source: the call `output += GetTrajectoriesString(build)` is
commented out (and `GetTrajectoriesString` itself returns the empty string),
so the emitted document contains no Trajectory element at all. -/
def ExportXML (build : Build) : Xml :=
  .el "Layer" ""
    [GetHeaderXml build, GetSegmentStylesXml build, GetVelocityProfilesXml build]

/-! ### The TypeScript rewrite (`src/validation.ts`, `src/index.ts`)

`validation.ts` threads a `type` through its accessors and calls
`cast(node.textContent, type)` — but discards the result and returns
`node.textContent` itself, so at runtime the "number" the signature promises
is the raw string.  Values are therefore modelled by `JsValue`, which keeps
strings and numbers apart. -/
namespace Ts

/-- A JavaScript runtime value as relevant here: a string or a number. -/
inductive JsValue where
  | str (s : String)
  | num (q : DecNum)
deriving DecidableEq

/-- The `type` parameter of the `validation.ts` accessors:
`undefined | "float" | "integer"`. -/
inductive Kind where
  | strKind
  | floatKind
  | intKind
deriving DecidableEq

/-- `validate(nodeName, value, type)` of `validation.ts`: regex typechecking
only when a numeric type was requested.  (Its `isIntegerRegex` and
`isFloatRegex` are the same expressions as in `alsam-xml.js`.) -/
def validate (value : String) : Kind → Bool
  | .floatKind => isFloatStr value
  | .intKind => isIntegerStr value
  | .strKind => true

/-- `cast(value, type)` of `validation.ts`: the coercion the accessors are
meant to return (`parseFloat` / `parseInt`); `undefined` for plain text. -/
def cast (value : String) : Kind → Option JsValue
  | .floatKind => (parseFloatJS value).map .num
  | .intKind => (parseIntJS value).map (fun n => JsValue.num ⟨n, 0⟩)
  | .strKind => none

/-- Message of `validate`'s failed assertion. -/
def validateMsg (tagName : String) : Kind → String
  | .floatKind => tagName ++ " must be a float"
  | .intKind => tagName ++ " must be an integer"
  | .strKind => tagName

/-- `getMandatoryValue(xmlNode, tagName, type)` of `validation.ts`: asserts
the node exists and its text is non-empty, validates it, computes
`cast(node.textContent, type)` — and then returns `node.textContent`, the
raw string, the cast result being discarded. -/
def getMandatoryValue (xmlNode : Xml) (tagName : String) (type : Kind) :
    Except String JsValue :=
  match (elemsByTag tagName xmlNode).head? with
  | none => .error ("Tag " ++ tagName ++ " is mandatory.")
  | some node =>
      if textContent node = "" then
        .error ("INVALID SCHEMA: Empty <" ++ tagName ++ "> tag!")
      else if !validate (textContent node) type then
        .error (validateMsg tagName type)
      else
        let _discarded := cast (textContent node) type
        .ok (.str (textContent node))

/-- `getOptionalValue(xmlNode, tagName, type)` of `validation.ts`: a missing
node or empty text falls through to `undefined`; malformed text fails the
`validate` assertion; otherwise the raw string is returned (the cast result
again discarded). -/
def getOptionalValue (xmlNode : Xml) (tagName : String) (type : Kind) :
    Except String (Option JsValue) :=
  match (elemsByTag tagName xmlNode).head? with
  | none => .ok none
  | some node =>
      if textContent node = "" then .ok none
      else if !validate (textContent node) type then
        .error (validateMsg tagName type)
      else
        let _discarded := cast (textContent node) type
        .ok (some (.str (textContent node)))

/-- JS truthiness of a value (`""` and `0` are falsy). -/
def jsTruthy : JsValue → Bool
  | .str s => s ≠ ""
  | .num q => q.mant ≠ 0

/-- JS `ToNumber` on a string, used by relational comparisons such as
`traveler.power >= 0`: the empty string is `0`, a full decimal literal is its
value, anything else is `NaN` (`none`). -/
def jsToNumber (s : String) : Option DecNum :=
  if s = "" then some ⟨0, 0⟩
  else if isFloatStr s then parseFloatJS s
  else none

/-- JS strict equality `v === n` between a runtime value and an integer
literal: never true for a string, numeric comparison of the values
otherwise. -/
def strictEqNum (v : JsValue) (n : Int) : Bool :=
  match v with
  | .str _ => false
  | .num q => q.mant = n * (10 : Int) ^ q.exp

/-- Numeric view of a value for JS loose relational comparison (strings are
coerced with `ToNumber`; `none` is `NaN`). -/
def relNum : JsValue → Option DecNum
  | .num q => some q
  | .str s => jsToNumber s

/-- JS loose relational test `v >= n` against an integer literal (a `NaN`
comparison is false). -/
def jsGe (v : JsValue) (n : Int) : Bool :=
  match relNum v with
  | some q => decide (n * (10 : Int) ^ q.exp ≤ q.mant)
  | none => false

/-- JS loose relational test `v <= n` against an integer literal (a `NaN`
comparison is false). -/
def jsLe (v : JsValue) (n : Int) : Bool :=
  match relNum v with
  | some q => decide (q.mant ≤ n * (10 : Int) ^ q.exp)
  | none => false

/-- JS loose relational test `v >= 0`. -/
def geZero (v : JsValue) : Bool := jsGe v 0

/-- Wobble record of `types.ts` (fields are whatever the accessors return). -/
structure Wobble where
  «on» : JsValue
  freq : JsValue
  shape : JsValue
  transAmp : JsValue
  longAmp : JsValue
deriving DecidableEq

/-- Traveler record of `types.ts`. -/
structure Traveler where
  ID : JsValue
  syncDelay : Option JsValue
  power : Option JsValue
  spotSize : Option JsValue
  wobble : Option Wobble
deriving DecidableEq

/-- SegmentStyle record of `types.ts`. -/
structure SegmentStyle where
  ID : JsValue
  velocityProfileID : JsValue
  laserMode : Option JsValue
  travelers : List Traveler
deriving DecidableEq

/-- The `if (wobbleCollection.length > 0)` block of `index.ts`
`getSegmentStyles`: the five mandatory fetches and the two asserts.  Note
`assert(wobble.on === 0 || wobble.on === 1)` compares the returned raw
STRING strictly against numbers, and the shape assert reads
`wobble.shape >= -1 && wobble.shape <= -1`. -/
def decodeWobbleBlock (wobbleElem : Xml) : Except String Wobble := do
  let won ← getMandatoryValue wobbleElem "On" .intKind
  let freq ← getMandatoryValue wobbleElem "Freq" .intKind
  let shape ← getMandatoryValue wobbleElem "Shape" .intKind
  let transAmp ← getMandatoryValue wobbleElem "TransAmp" .floatKind
  let longAmp ← getMandatoryValue wobbleElem "LongAmp" .floatKind
  if !(strictEqNum won 0 || strictEqNum won 1) then
    .error "INVALID SCHEMA: Wobble On must be 0 or 1!"
  else if !(jsGe shape (-1) && jsLe shape (-1)) then
    .error "INVALID SCHEMA: Wobble Shape must be -1, 0, or 1!"
  else
    pure ⟨won, freq, shape, transAmp, longAmp⟩

/-- Body of the traveler loop of `index.ts` `getSegmentStyles`.  The source
declares `let wobble: Wobble | null = null` and then, inside the
`if (wobbleCollection.length > 0)` branch, binds a NEW `const wobble` that
shadows the outer one, so the traveler is always built with the outer
`wobble`, i.e. `null` — the decoded wobble block is validated and thrown
away. -/
def decodeTraveler (travelerXML : Xml) : Except String Traveler := do
  let _shadowed ←
    match (elemsByTag "Wobble" travelerXML).head? with
    | some wobbleElem => do
        let w ← decodeWobbleBlock wobbleElem
        pure (some w)
    | none => pure (none : Option Wobble)
  let id ← getMandatoryValue travelerXML "ID" .intKind
  let syncDelay ← getOptionalValue travelerXML "SyncDelay" .intKind
  let power ← getOptionalValue travelerXML "Power" .floatKind
  let spotSize ← getOptionalValue travelerXML "SpotSize" .floatKind
  if !(match power with
      | none => true
      | some p => !jsTruthy p || geZero p) then
    .error "INVALID SCHEMA: Power must be a real number more than zero!"
  else
    pure ⟨id, syncDelay, power, spotSize, none⟩

/-- The traveler loop of `index.ts` `getSegmentStyles`. -/
def travelersLoop : List Xml → Except String (List Traveler)
  | [] => .ok []
  | t :: rest => do
      let tr ← decodeTraveler t
      let trs ← travelersLoop rest
      pure (tr :: trs)

/-- Body of the segment-style loop of `index.ts` `getSegmentStyles`: unlike
`alsam-xml.js`, `laserMode` is fetched with `getOptionalValueString` even
when travelers are present (the inline comment still reads "Required if a
Traveler exists"). -/
def decodeSegmentStyle (style : Xml) : Except String SegmentStyle := do
  let travelers ← travelersLoop (elemsByTag "Traveler" style)
  let id ← getMandatoryValue style "ID" .strKind
  let velocityProfileID ← getMandatoryValue style "VelocityProfileID" .strKind
  let laserMode ←
    if travelers.length ≠ 0 then getOptionalValue style "LaserMode" .strKind
    else pure (none : Option JsValue)
  if !(match laserMode with
      | none => true
      | some lm =>
          !jsTruthy lm || lm = JsValue.str "Independent" || lm = JsValue.str "FollowMe") then
    .error "INVALID SCHEMA: LaserMode must be 'Independent' or 'FollowMe'!"
  else
    pure ⟨id, velocityProfileID, laserMode, travelers⟩
end Ts

/-! ### Spec-side description of cursor chaining

Used only to compare the decoder's segment loop against the specification's
wording: segment 0 runs from the declared start point to the first declared
endpoint, and every later segment runs from the previous declared endpoint
to its own. -/

/-- Segment list as the specification describes it, built from a start point
and the list of declared endpoints. -/
def chainedSegmentsSpec (segStyle : String) : String × String → List (String × String) → List Segment
  | _, [] => []
  | (lx, ly), (x, y) :: rest =>
      ⟨lx, ly, x, y, none, segStyle⟩ :: chainedSegmentsSpec segStyle (x, y) rest

/-! ### General lemmas about the embedding -/

/-- Text content of a leaf element is its own text. -/
theorem textContent_leaf (t v : String) : textContent (.el t v []) = v := by
  show v ++ "" = v
  exact String.append_empty v

/-- A tag with no matching descendant makes `getMandatoryValue` fail with the
message naming that tag. -/
theorem getMandatoryValue_of_no_match (n : Xml) (t : String)
    (h : (elemsByTag t n).length = 0) :
    getMandatoryValue n t =
      .error ("INVALID SCHEMA: Mandatory tag " ++ t ++
        " not found in XML as child of tag " ++ n.tagName) := by
  unfold getMandatoryValue
  rw [List.length_eq_zero.mp h]
  rfl

/-- Bind of an `Except` yields `ok` exactly when both steps do. -/
theorem except_bind_ok {α β : Type} {e : Except String α} {k : α → Except String β} {b : β} :
    (e >>= k) = Except.ok b ↔ ∃ a, e = Except.ok a ∧ k a = Except.ok b := by
  cases e <;> simp [Bind.bind, Except.bind]

/-- A failing first step makes the whole bind fail. -/
theorem except_bind_err {α β : Type} {e : Except String α} {k : α → Except String β}
    {m : String} (h : e = .error m) : (e >>= k) = Except.error m := by
  subst h; rfl

/-- The traveler loop of `getSegmentStyles` returns one traveler per Traveler
element. -/
theorem travelersLoop_length : ∀ {l : List Xml} {ts : List Traveler},
    travelersLoop l = .ok ts → ts.length = l.length := by
  intro l
  induction l with
  | nil => intro ts h; cases h; rfl
  | cons x xs ih =>
      intro ts h
      unfold travelersLoop at h
      rw [except_bind_ok] at h
      obtain ⟨tr, _, h⟩ := h
      rw [except_bind_ok] at h
      obtain ⟨trs, htrs, h⟩ := h
      cases h
      simp [ih htrs]

/-- `getElementsByTagName` distributes over appended child lists. -/
theorem elemsByTagList_append (t : String) (l1 l2 : List Xml) :
    elemsByTagList t (l1 ++ l2) = elemsByTagList t l1 ++ elemsByTagList t l2 := by
  induction l1 with
  | nil => rfl
  | cons c cs ih => simp [elemsByTagList, ih]

/-- A `DecNum` denotes a negative rational exactly when its mantissa is
negative (the denominator `10 ^ exp` is positive). -/
theorem DecNum.toRat_neg_iff (d : DecNum) : d.toRat < 0 ↔ d.mant < 0 := by
  unfold DecNum.toRat
  rw [div_neg_iff]
  have hpow : (0 : Rat) < (10 : Rat) ^ d.exp := by positivity
  constructor
  · rintro (⟨_, h⟩ | ⟨h, _⟩)
    · exact absurd hpow (not_lt.mpr h.le)
    · exact_mod_cast h
  · intro h
    exact Or.inr ⟨by exact_mod_cast h, hpow⟩

/-! ### Concrete documents and values used by the claim theorems -/

/-- A Build with one (valid) trajectory, used to exercise the encode–decode
round trip. -/
def buildWithTrajectory : Build :=
  { header := ⟨"2020-03-23", none, "0.1", none, none, none⟩
    segmentStyles := [⟨"s1", "v1", none, []⟩]
    velocityProfiles := [⟨"v1", "1", "Auto", "0", "0", "0", "0", "0"⟩]
    trajectories := [⟨"t1", "sequential",
      some ⟨"hatch", "tg", "1", "0", [⟨"0", "0", "1", "1", none, "s1"⟩]⟩⟩] }

/-- A node holding a float-typed field with text "1.5". -/
def nodeWithFloatField : Xml := .el "Header" "" [.el "LayerThickness" "1.5" []]

/-- A Trajectory element with two Path children (tags "A" and "B"). -/
def trajectoryWithTwoPaths : Xml :=
  .el "Trajectory" ""
    [.el "TrajectoryID" "t1" [], .el "PathProcessingMode" "sequential" [],
      .el "Path" ""
        [.el "Type" "hatch" [], .el "Tag" "A" [], .el "NumSegments" "1" [],
          .el "SkyWritingMode" "0" [],
          .el "Start" "" [.el "X" "0" [], .el "Y" "0" []],
          .el "Segment" "" [.el "X" "1" [], .el "Y" "1" [], .el "SegStyle" "s1" []]],
      .el "Path" ""
        [.el "Type" "contour" [], .el "Tag" "B" [], .el "NumSegments" "1" [],
          .el "SkyWritingMode" "1" [],
          .el "Start" "" [.el "X" "2" [], .el "Y" "2" []],
          .el "Segment" "" [.el "X" "3" [], .el "Y" "3" [], .el "SegStyle" "s2" []]]]

/-- Document whose header is fully valid except that the mandatory
LayerThickness tag is present with EMPTY text content. -/
def docEmptyLayerThickness : Xml :=
  .el "Layer" ""
    [.el "Header" ""
      [.el "AmericaMakesSchemaVersion" "2020-03-23" [], .el "LayerThickness" "" []]]

/-- Document whose header is fully valid except that the mandatory
LayerThickness tag is missing entirely. -/
def docMissingLayerThickness : Xml :=
  .el "Layer" ""
    [.el "Header" "" [.el "AmericaMakesSchemaVersion" "2020-03-23" []]]

/-- Header document (valid schema version) with the given LayerThickness
text. -/
def headerDocWithThickness (lt : String) : Xml :=
  .el "Layer" ""
    [.el "Header" ""
      [.el "AmericaMakesSchemaVersion" "2020-03-23" [], .el "LayerThickness" lt []]]

/-- Wobble element with valid On / Freq / TransAmp / LongAmp fields and the
given Shape text. -/
def wobbleElWithShape (s : String) : Xml :=
  .el "Wobble" ""
    [.el "On" "1" [], .el "Freq" "100" [], .el "Shape" s [],
      .el "TransAmp" "0.5" [], .el "LongAmp" "0.5" []]

/-- SegmentStyle element with one Traveler child (integer ID) and no
LaserMode tag, all other fields valid. -/
def styleWithTravelerNoLaserMode : Xml :=
  .el "SegmentStyle" ""
    [.el "ID" "s1" [], .el "VelocityProfileID" "v1" [],
      .el "Traveler" "" [.el "ID" "1" []]]

/-- SegmentStyle element with no Traveler children and no LaserMode tag. -/
def styleNoTravelersNoLaserMode : Xml :=
  .el "SegmentStyle" "" [.el "ID" "s1" [], .el "VelocityProfileID" "v1" []]

/-- Traveler element with no Wobble child (ID, Power, SpotSize given). -/
def travelerElNoWobble (id p ss : String) : Xml :=
  .el "Traveler" "" [.el "ID" id [], .el "Power" p [], .el "SpotSize" ss []]

/-- Example wobble element with all five fields present and valid. -/
def wobbleElExample : Xml :=
  .el "Wobble" ""
    [.el "On" "1" [], .el "Freq" "100" [], .el "Shape" "0" [],
      .el "TransAmp" "0.5" [], .el "LongAmp" "0.5" []]

/-- Traveler element containing `wobbleElExample`. -/
def travelerElWithWobble : Xml :=
  .el "Traveler" ""
    [.el "ID" "1" [], .el "Power" "2" [], .el "SpotSize" "3" [], wobbleElExample]

/-- Segment element with declared endpoint texts `x`, `y` and style
reference `st`. -/
def mkSegEl (x y st : String) : Xml :=
  .el "Segment" "" [.el "X" x [], .el "Y" y [], .el "SegStyle" st []]

/-- Node with two matching "V" descendants, texts "1" then "2". -/
def nodeTwoMatches : Xml := .el "R" "" [.el "V" "1" [], .el "V" "2" []]

/-- Node agreeing with `nodeTwoMatches` on the first "V" match but differing
after it. -/
def nodeTwoMatchesAlt : Xml := .el "R" "" [.el "V" "1" [], .el "V" "3" []]

/-! ### Claim theorems -/

/-- Claim C1 (code bug): the round trip `decode(encode(L))` is NOT the
identity on valid Layers.  For the valid Build `buildWithTrajectory`,
`ExportXML` emits no Trajectory element at all (the emission call is
commented out in `alsam-xml.js`, and `GetTrajectoriesString` is a stub
returning the empty string), so decoding the encoded document returns the
same Build with its trajectory list empty — every trajectory is lost. -/
theorem roundTripDropsTrajectories :
    LoadXML (ExportXML buildWithTrajectory) =
      .ok { buildWithTrajectory with trajectories := [] }
    ∧ buildWithTrajectory.trajectories ≠ [] := by
  exact ⟨rfl, by decide⟩

/-- Claim C2 (code bug): `getMandatoryValue` of `validation.ts` computes the
coercion `cast(node.textContent, "float")` — here the number 15/10 — but
returns the raw text string `"1.5"`, not that number, for the field
`LayerThickness` of `nodeWithFloatField`. -/
theorem mandatoryFloatReturnsRawText :
    Ts.getMandatoryValue nodeWithFloatField "LayerThickness" .floatKind = .ok (.str "1.5")
    ∧ Ts.cast "1.5" .floatKind = some (.num ⟨15, 1⟩)
    ∧ Ts.JsValue.str "1.5" ≠ Ts.JsValue.num ⟨15, 1⟩
    ∧ DecNum.toRat ⟨15, 1⟩ = 3 / 2 := by
  refine ⟨rfl, rfl, by decide, by norm_num [DecNum.toRat]⟩

/-- Claim C8 (code bug): `getTrajectories` of `alsam-xml.js` decodes only the
FIRST Path child of a Trajectory element into the singular `path` field; on
`trajectoryWithTwoPaths` (two Path children) the decoded trajectory holds the
first path (tag "A") and the second path (tag "B") is dropped. -/
theorem trajectoryKeepsOnlyFirstPath :
    decodeTrajectory trajectoryWithTwoPaths =
      .ok ⟨"t1", "sequential",
        some ⟨"hatch", "A", "1", "0", [⟨"0", "0", "1", "1", none, "s1"⟩]⟩⟩
    ∧ (elemsByTag "Path" trajectoryWithTwoPaths).length = 2 := by
  exact ⟨rfl, rfl⟩

/-- Claim C5 (counterexample): decoding a document in which the one mandatory
field LayerThickness is present but has EMPTY text content — all other
fields valid — SUCCEEDS in `alsam-xml.js` (`getMandatoryValue` returns the
empty string and `parseFloat("") < 0` is false), contradicting the claim
that it must fail. -/
theorem emptyLayerThicknessAccepted :
    LoadXML docEmptyLayerThickness =
      .ok ⟨⟨"2020-03-23", none, "", none, none, none⟩, [], [], []⟩ := rfl

/-- Claim C5 (amended): a MISSING mandatory tag makes `getMandatoryValue` of
`alsam-xml.js` fail with a schema violation naming that tag (and the failure
aborts `LoadXML`, so no partial Build is returned); an empty text content,
however, is only rejected by the TypeScript accessors of `validation.ts`,
not by `alsam-xml.js`. -/
theorem missingMandatoryTagFails :
    (∀ (n : Xml) (t : String), (elemsByTag t n).length = 0 →
      getMandatoryValue n t =
        .error ("INVALID SCHEMA: Mandatory tag " ++ t ++
          " not found in XML as child of tag " ++ n.tagName))
    ∧ LoadXML docMissingLayerThickness =
        .error "INVALID SCHEMA: Mandatory tag LayerThickness not found in XML as child of tag Layer"
    ∧ Ts.getMandatoryValue docEmptyLayerThickness "LayerThickness" .floatKind =
        .error "INVALID SCHEMA: Empty <LayerThickness> tag!" := by
  exact ⟨getMandatoryValue_of_no_match, rfl, rfl⟩

/-- Witness for the amended claim C5, at a concrete childless Header node. -/
theorem missingMandatoryTagFails_witness :
    getMandatoryValue (Xml.el "Header" "" []) "LayerThickness" =
      .error "INVALID SCHEMA: Mandatory tag LayerThickness not found in XML as child of tag Header" :=
  missingMandatoryTagFails.1 (Xml.el "Header" "" []) "LayerThickness" rfl

/-- Inverting a successful `getHeader`: the LayerThickness guard
`parseFloat(layerThickness) < 0` must have been false. -/
theorem getHeader_ok_thickness {doc : Xml} {h : Header}
    (hok : getHeader doc = .ok h) : floatLtZero h.layerThickness = false := by
  unfold getHeader at hok
  rw [except_bind_ok] at hok
  obtain ⟨v, _, hok⟩ := hok
  rw [except_bind_ok] at hok
  obtain ⟨lt, _, hok⟩ := hok
  simp only at hok
  split at hok
  · cases hok
  · split at hok
    · cases hok
    · split at hok
      · cases hok
      · split at hok
        · cases hok
        · split at hok
          · cases hok
          · cases hok
            next h1 h2 h3 h4 h5 =>
              simpa using h3

/-- Claim C9 (code bug): LayerThickness "-1.0" fails decoding and "0.5"
succeeds, exactly as claimed — but the invariant "layer thickness strictly
greater than zero" does NOT hold on `alsam-xml.js`: its guard is
`parseFloat < 0` although the adjacent comment and error message both say
"more than zero" (and the `index.ts` rewrite asserts `> 0`), so
LayerThickness "0" decodes successfully with value 0.  What every successful
decode does guarantee is that the thickness never parses negative. -/
theorem layerThicknessNeverNegative :
    getHeader (headerDocWithThickness "-1.0") =
      .error "INVALID SCHEMA: Provided LayerThickness -1.0 must be a real number more than zero!"
    ∧ getHeader (headerDocWithThickness "0.5") =
        .ok ⟨"2020-03-23", none, "0.5", none, none, none⟩
    ∧ getHeader (headerDocWithThickness "0") =
        .ok ⟨"2020-03-23", none, "0", none, none, none⟩
    ∧ parseFloatJS "0" = some ⟨0, 0⟩
    ∧ DecNum.toRat ⟨0, 0⟩ = 0
    ∧ (∀ (doc : Xml) (h : Header), getHeader doc = .ok h →
        floatLtZero h.layerThickness = false)
    ∧ (∀ (doc : Xml) (h : Header) (d : DecNum), getHeader doc = .ok h →
        parseFloatJS h.layerThickness = some d → 0 ≤ d.toRat) := by
  refine ⟨rfl, rfl, rfl, rfl, by norm_num [DecNum.toRat],
    fun doc h hok => getHeader_ok_thickness hok, fun doc h d hok hd => ?_⟩
  have hz := getHeader_ok_thickness hok
  unfold floatLtZero at hz
  rw [hd] at hz
  simp only [decide_eq_false_iff_not, Int.not_lt] at hz
  by_contra hneg
  rw [not_le] at hneg
  exact absurd ((DecNum.toRat_neg_iff d).mp hneg) (by omega)

/-- Witness for claim C9, instantiated at the "0.5" document. -/
theorem layerThicknessNeverNegative_witness :
    floatLtZero (Header.layerThickness ⟨"2020-03-23", none, "0.5", none, none, none⟩) = false :=
  layerThicknessNeverNegative.2.2.2.2.2.1 (headerDocWithThickness "0.5") _
    layerThicknessNeverNegative.2.1

/-- Claim C7 (counterexample): the Shape text "1.9" — whose numeric value
19/10 is none of −1, 0, 1 — is ACCEPTED by the wobble decoder of
`alsam-xml.js`, because the check compares `parseInt(shape)` (which truncates
"1.9" to 1) and, unlike Freq, Shape gets no integer-format check. -/
theorem wobbleShapeTextAccepted :
    decodeWobble (wobbleElWithShape "1.9") = .ok ⟨"1", "100", "1.9", "0.5", "0.5"⟩
    ∧ parseFloatJS "1.9" = some ⟨19, 1⟩
    ∧ DecNum.toRat ⟨19, 1⟩ ≠ -1 ∧ DecNum.toRat ⟨19, 1⟩ ≠ 0 ∧ DecNum.toRat ⟨19, 1⟩ ≠ 1 := by
  refine ⟨rfl, rfl, ?_, ?_, ?_⟩ <;> norm_num [DecNum.toRat]

/-- Claim C7 (amended): with all other wobble fields valid, decoding the
wobble succeeds exactly when `parseInt` of the Shape text is −1, 0 or 1; in
particular it succeeds for the texts "-1", "0", "1" and fails for every
integer text with a value outside that set — but non-integer texts whose
`parseInt` prefix lies in the set (such as "1.9") are accepted. -/
theorem wobbleShapeCharacterization (s : String) :
    (∃ wob, decodeWobble (wobbleElWithShape s) = .ok wob) ↔
      (parseIntJS s = some (-1) ∨ parseIntJS s = some 0 ∨ parseIntJS s = some 1) := by
  have hShape : getMandatoryValue (wobbleElWithShape s) "Shape" = .ok s := by
    show Except.ok (textContent (.el "Shape" s [])) = Except.ok s
    rw [textContent_leaf]
  have key : decodeWobble (wobbleElWithShape s) =
      if parseIntJS s = some (-1) ∨ parseIntJS s = some 0 ∨ parseIntJS s = some 1 then
        .ok ⟨"1", "100", s, "0.5", "0.5"⟩
      else
        .error ("INVALID SCHEMA: Provided Shape " ++ s ++ " must be either -1, 0, or 1!") := by
    have hOn : getMandatoryValue (wobbleElWithShape s) "On" = .ok "1" := rfl
    have hFreq : getMandatoryValue (wobbleElWithShape s) "Freq" = .ok "100" := rfl
    have hTA : getMandatoryValue (wobbleElWithShape s) "TransAmp" = .ok "0.5" := rfl
    have hLA : getMandatoryValue (wobbleElWithShape s) "LongAmp" = .ok "0.5" := rfl
    have c1 : decide (parseIntJS "1" = some 0 ∨ parseIntJS "1" = some 1) = true := by decide
    have c2 : isIntegerStr "100" = true := by decide
    unfold decodeWobble
    simp only [hOn, hFreq, hShape, hTA, hLA, Bind.bind, Except.bind, c1, c2,
      Bool.not_true, Bool.false_eq_true, if_false]
    by_cases hc : parseIntJS s = some (-1) ∨ parseIntJS s = some 0 ∨ parseIntJS s = some 1
    · simp [hc]; rfl
    · simp [hc]
  by_cases hc : parseIntJS s = some (-1) ∨ parseIntJS s = some 0 ∨ parseIntJS s = some 1
  · simp [key, hc]
  · simp [key, hc]

/-- Witness for the amended claim C7: at Shape text "2" the decode fails
("2" parses to 2, outside the set). -/
theorem wobbleShapeCharacterization_witness :
    ¬ ∃ wob, decodeWobble (wobbleElWithShape "2") = .ok wob := by
  intro h
  have hmem := (wobbleShapeCharacterization "2").mp h
  revert hmem
  decide

/-- Claim C4 (code bug in the TypeScript rewrite): in `alsam-xml.js` a
SegmentStyle with at least one Traveler child and no LaserMode tag always
fails to decode, and one with zero Travelers and no LaserMode decodes with
`laserMode` absent — exactly as claimed; but `index.ts` fetches `laserMode`
with the OPTIONAL accessor (its inline comment still says "Required if a
Traveler exists"), so the same traveler-bearing style decodes successfully
there with `laserMode` absent. -/
theorem laserModeConditional :
    (∀ style : Xml, (elemsByTag "Traveler" style).length ≠ 0 →
      (elemsByTag "LaserMode" style).length = 0 →
      ∃ m, decodeSegmentStyle style = .error m)
    ∧ (∀ (style : Xml) (id vpid : String), (elemsByTag "Traveler" style).length = 0 →
        getMandatoryValue style "ID" = .ok id →
        getMandatoryValue style "VelocityProfileID" = .ok vpid →
        decodeSegmentStyle style = .ok ⟨id, vpid, none, []⟩)
    ∧ Ts.decodeSegmentStyle styleWithTravelerNoLaserMode =
        .ok ⟨.str "s1", .str "v1", none, [⟨.str "1", none, none, none, none⟩]⟩ := by
  refine ⟨?_, ?_, rfl⟩
  · intro style hT hL
    unfold decodeSegmentStyle
    cases h1 : travelersLoop (elemsByTag "Traveler" style) with
    | error m => exact ⟨m, by simp [h1, Bind.bind, Except.bind]⟩
    | ok ts =>
      have hts : ts.length ≠ 0 := by rw [travelersLoop_length h1]; exact hT
      cases h2 : getMandatoryValue style "ID" with
      | error m => exact ⟨m, by simp [h1, h2, Bind.bind, Except.bind]⟩
      | ok id =>
        cases h3 : getMandatoryValue style "VelocityProfileID" with
        | error m => exact ⟨m, by simp [h1, h2, h3, Bind.bind, Except.bind]⟩
        | ok vpid =>
          have h4 := getMandatoryValue_of_no_match style "LaserMode" hL
          exact ⟨"INVALID SCHEMA: Mandatory tag LaserMode not found in XML as child of tag " ++
            style.tagName, by simp [h1, h2, h3, h4, hts, Bind.bind, Except.bind]⟩
  · intro style id vpid hT h2 h3
    have h1 : travelersLoop (elemsByTag "Traveler" style) = .ok [] := by
      rw [List.length_eq_zero.mp hT]; rfl
    unfold decodeSegmentStyle
    simp [h1, h2, h3, Bind.bind, Except.bind]
    rfl

/-- Witness for claim C4 at the two concrete styles. -/
theorem laserModeConditional_witness :
    (∃ m, decodeSegmentStyle styleWithTravelerNoLaserMode = .error m)
    ∧ decodeSegmentStyle styleNoTravelersNoLaserMode = .ok ⟨"s1", "v1", none, []⟩ :=
  ⟨laserModeConditional.1 styleWithTravelerNoLaserMode (by decide) (by decide),
    laserModeConditional.2.1 styleNoTravelersNoLaserMode "s1" "v1" (by decide) rfl rfl⟩

/-- Inverting a successful `decodeWobble`: all five mandatory fetches
succeeded and the wobble holds exactly their values. -/
theorem decodeWobble_ok_inversion {w : Xml} {wob : Wobble}
    (h : decodeWobble w = .ok wob) :
    getMandatoryValue w "On" = .ok wob.«on» ∧ getMandatoryValue w "Freq" = .ok wob.freq ∧
    getMandatoryValue w "Shape" = .ok wob.shape ∧
    getMandatoryValue w "TransAmp" = .ok wob.transAmp ∧
    getMandatoryValue w "LongAmp" = .ok wob.longAmp := by
  unfold decodeWobble at h
  rw [except_bind_ok] at h
  obtain ⟨won, hon, h⟩ := h
  rw [except_bind_ok] at h
  obtain ⟨freq, hfreq, h⟩ := h
  rw [except_bind_ok] at h
  obtain ⟨shape, hshape, h⟩ := h
  rw [except_bind_ok] at h
  obtain ⟨ta, hta, h⟩ := h
  rw [except_bind_ok] at h
  obtain ⟨la, hla, h⟩ := h
  split at h
  · cases h
  · split at h
    · cases h
    · split at h
      · cases h
      · cases h
        exact ⟨hon, hfreq, hshape, hta, hla⟩

/-- Claim C6 (code bug in the TypeScript rewrite): in `alsam-xml.js` a
decoded traveler carries a wobble exactly when its element has a Wobble
descendant; when one is present all five wobble fields were mandatory
fetches whose values the wobble holds verbatim; and a traveler element
without a Wobble child (other fields valid) decodes without error and with
`wobble` absent.  In `index.ts`, however, a traveler with a perfectly valid
Wobble child fails to decode at all: the `wobble.on === 0 || wobble.on === 1`
assert strictly compares the accessor's raw STRING against numbers (the
`cast` result having been discarded) and is therefore always false — and even
a passing wobble would be lost to the shadowed inner `const wobble`. -/
theorem travelerWobbleDecoding :
    (∀ (tEl : Xml) (trav : Traveler), decodeTraveler tEl = .ok trav →
      ((elemsByTag "Wobble" tEl).head? = none → trav.wobble = none)
      ∧ (∀ w, (elemsByTag "Wobble" tEl).head? = some w →
          ∃ wob : Wobble,
            getMandatoryValue w "On" = .ok wob.«on» ∧
            getMandatoryValue w "Freq" = .ok wob.freq ∧
            getMandatoryValue w "Shape" = .ok wob.shape ∧
            getMandatoryValue w "TransAmp" = .ok wob.transAmp ∧
            getMandatoryValue w "LongAmp" = .ok wob.longAmp ∧
            trav.wobble = some wob))
    ∧ (∀ id p ss, isIntegerStr id = true → isFloatStr p = true → isFloatStr ss = true →
        decodeTraveler (travelerElNoWobble id p ss) =
          .ok ⟨id, none, some p, some ss, none⟩)
    ∧ Ts.decodeTraveler travelerElWithWobble =
        .error "INVALID SCHEMA: Wobble On must be 0 or 1!" := by
  refine ⟨?_, ?_, rfl⟩
  · intro tEl trav h
    unfold decodeTraveler at h
    rw [except_bind_ok] at h
    obtain ⟨wobble, hwb, h⟩ := h
    unfold travelerWobblePart at hwb
    rw [except_bind_ok] at h
    obtain ⟨id, hid, h⟩ := h
    simp only [] at h
    have htrav : trav.wobble = wobble := by
      split at h
      · cases h
      · split at h
        · cases h
        · split at h
          · cases h
          · split at h
            · cases h
            · cases h
              rfl
    constructor
    · intro hnone
      rw [hnone] at hwb
      cases hwb
      exact htrav
    · intro w hsome
      rw [hsome] at hwb
      rw [except_bind_ok] at hwb
      obtain ⟨wob, hwob, heq⟩ := hwb
      cases heq
      obtain ⟨e1, e2, e3, e4, e5⟩ := decodeWobble_ok_inversion hwob
      exact ⟨wob, e1, e2, e3, e4, e5, htrav⟩
  · intro id p ss hid hp hss
    have e0 : (elemsByTag "Wobble" (travelerElNoWobble id p ss)).head? = none := rfl
    have e1 : getMandatoryValue (travelerElNoWobble id p ss) "ID" = .ok id := by
      show Except.ok (textContent (.el "ID" id [])) = _
      rw [textContent_leaf]
    have e2 : getOptionalValue (travelerElNoWobble id p ss) "SyncDelay" = none := rfl
    have e3 : getOptionalValue (travelerElNoWobble id p ss) "Power" = some p := by
      show some (textContent (.el "Power" p [])) = _
      rw [textContent_leaf]
    have e4 : getOptionalValue (travelerElNoWobble id p ss) "SpotSize" = some ss := by
      show some (textContent (.el "SpotSize" ss [])) = _
      rw [textContent_leaf]
    unfold decodeTraveler travelerWobblePart
    rw [e0]
    simp [e1, e2, e3, e4, hid, hp, hss, Bind.bind, Except.bind, jsStringOrNull]
    rfl

/-- Witness for claim C6 at two concrete traveler elements (with and without
a Wobble child). -/
theorem travelerWobbleDecoding_witness :
    (∃ wob : Wobble,
      getMandatoryValue wobbleElExample "On" = .ok wob.«on» ∧
      getMandatoryValue wobbleElExample "Freq" = .ok wob.freq ∧
      getMandatoryValue wobbleElExample "Shape" = .ok wob.shape ∧
      getMandatoryValue wobbleElExample "TransAmp" = .ok wob.transAmp ∧
      getMandatoryValue wobbleElExample "LongAmp" = .ok wob.longAmp ∧
      (Traveler.mk "1" none (some "2") (some "3")
        (some ⟨"1", "100", "0", "0.5", "0.5"⟩)).wobble = some wob)
    ∧ decodeTraveler (travelerElNoWobble "1" "2" "3") =
        .ok ⟨"1", none, some "2", some "3", none⟩ :=
  ⟨(travelerWobbleDecoding.1 travelerElWithWobble
      ⟨"1", none, some "2", some "3", some ⟨"1", "100", "0", "0.5", "0.5"⟩⟩ rfl).2
      wobbleElExample rfl,
    travelerWobbleDecoding.2.1 "1" "2" "3" (by decide) (by decide) (by decide)⟩

/-- The spec-side chain has one segment per declared endpoint. -/
theorem chainedSegmentsSpec_length (st : String) (start : String × String)
    (ps : List (String × String)) :
    (chainedSegmentsSpec st start ps).length = ps.length := by
  induction ps generalizing start with
  | nil => rfl
  | cons p tl ih =>
      obtain ⟨x, y⟩ := p
      obtain ⟨lx, ly⟩ := start
      simp [chainedSegmentsSpec, ih]

/-- Positional form of the spec-side chain: segment `i` runs from the
previous declared endpoint (the start point for `i = 0`) to the `i`-th
declared endpoint. -/
theorem chainedSegmentsSpec_getD (st : String) (start : String × String)
    (ps : List (String × String)) (i : Nat) (hi : i < ps.length) :
    (chainedSegmentsSpec st start ps).getD i ⟨"", "", "", "", none, ""⟩ =
      ⟨(if i = 0 then start else ps.getD (i - 1) ("", "")).1,
        (if i = 0 then start else ps.getD (i - 1) ("", "")).2,
        (ps.getD i ("", "")).1, (ps.getD i ("", "")).2, none, st⟩ := by
  induction ps generalizing start i with
  | nil => simp at hi
  | cons p tl ih =>
      obtain ⟨x, y⟩ := p
      obtain ⟨lx, ly⟩ := start
      cases i with
      | zero => simp [chainedSegmentsSpec]
      | succ j =>
          have hj : j < tl.length := by simpa using hi
          simp only [chainedSegmentsSpec, List.getD_cons_succ]
          rw [ih (x, y) j hj]
          cases j with
          | zero => simp
          | succ k => simp

/-- The segment loop of `getTrajectories` on a path whose segments declare
the endpoint texts `ps` produces exactly the spec-side chain. -/
theorem segmentsLoop_spec (st sx sy : String) (ps : List (String × String))
    (hf : ∀ p ∈ ps, isFloatStr p.1 = true ∧ isFloatStr p.2 = true) :
    segmentsLoop sx sy (ps.map fun p => mkSegEl p.1 p.2 st) =
      .ok (chainedSegmentsSpec st (sx, sy) ps) := by
  induction ps generalizing sx sy with
  | nil => rfl
  | cons p tl ih =>
      obtain ⟨x, y⟩ := p
      obtain ⟨hx, hy⟩ := hf (x, y) (List.mem_cons_self _ _)
      have htl : ∀ q ∈ tl, isFloatStr q.1 = true ∧ isFloatStr q.2 = true :=
        fun q hq => hf q (List.mem_cons_of_mem _ hq)
      have ex : getMandatoryValue (mkSegEl x y st) "X" = .ok x := by
        show Except.ok (textContent (.el "X" x [])) = _
        rw [textContent_leaf]
      have ey : getMandatoryValue (mkSegEl x y st) "Y" = .ok y := by
        show Except.ok (textContent (.el "Y" y [])) = _
        rw [textContent_leaf]
      have es : getMandatoryValue (mkSegEl x y st) "SegStyle" = .ok st := by
        show Except.ok (textContent (.el "SegStyle" st [])) = _
        rw [textContent_leaf]
      have eid : getOptionalValue (mkSegEl x y st) "SegmentID" = none := rfl
      simp only [List.map_cons]
      unfold segmentsLoop
      simp [ex, ey, es, eid, hx, hy, Bind.bind, Except.bind, ih x y htl, chainedSegmentsSpec]
      rfl

/-- Claim C3: decoding a Path whose Start is `(sx, sy)` and whose Segment
children declare endpoints `ps` (all float-formatted) yields the cursor
chain — segment 0 runs from the start point to the first endpoint, and
segment `i` runs from endpoint `i − 1` to endpoint `i`. -/
theorem cursorChaining (sx sy st : String) (ps : List (String × String))
    (hf : ∀ p ∈ ps, isFloatStr p.1 = true ∧ isFloatStr p.2 = true) :
    segmentsLoop sx sy (ps.map fun p => mkSegEl p.1 p.2 st) =
      .ok (chainedSegmentsSpec st (sx, sy) ps)
    ∧ (chainedSegmentsSpec st (sx, sy) ps).length = ps.length
    ∧ ∀ i, i < ps.length →
        (chainedSegmentsSpec st (sx, sy) ps).getD i ⟨"", "", "", "", none, ""⟩ =
          ⟨(if i = 0 then (sx, sy) else ps.getD (i - 1) ("", "")).1,
            (if i = 0 then (sx, sy) else ps.getD (i - 1) ("", "")).2,
            (ps.getD i ("", "")).1, (ps.getD i ("", "")).2, none, st⟩ :=
  ⟨segmentsLoop_spec st sx sy ps hf, chainedSegmentsSpec_length st (sx, sy) ps,
    fun i hi => chainedSegmentsSpec_getD st (sx, sy) ps i hi⟩

/-- Witness for claim C3, at the specification's own example: Start (0,0)
and endpoints (1,1), (2,2) decode to segments (0,0)→(1,1) and
(1,1)→(2,2). -/
theorem cursorChaining_witness :
    segmentsLoop "0" "0" [mkSegEl "1" "1" "s1", mkSegEl "2" "2" "s1"] =
      .ok [⟨"0", "0", "1", "1", none, "s1"⟩, ⟨"1", "1", "2", "2", none, "s1"⟩] :=
  (cursorChaining "0" "0" "s1" [("1", "1"), ("2", "2")] (by decide)).1

/-- Claim C10: every field accessor — `getOptionalValue` / `getMandatoryValue`
of `alsam-xml.js` and of `validation.ts` — resolves a tag via
`getElementsByTagName(tagName)[0]`, so its result depends only on the FIRST
matching descendant (and, for the JS mandatory error message, the node's own
tag): two nodes agreeing there get identical results, and appending further
children to a node that already has a match never changes any accessor's
result. -/
theorem accessorsFirstMatch :
    (∀ (n nA : Xml) (t : String), n.tagName = nA.tagName →
      (elemsByTag t n).head? = (elemsByTag t nA).head? →
      getOptionalValue n t = getOptionalValue nA t ∧
      getMandatoryValue n t = getMandatoryValue nA t)
    ∧ (∀ (n nA : Xml) (t : String) (k : Ts.Kind),
        (elemsByTag t n).head? = (elemsByTag t nA).head? →
        Ts.getOptionalValue n t k = Ts.getOptionalValue nA t k ∧
        Ts.getMandatoryValue n t k = Ts.getMandatoryValue nA t k)
    ∧ (∀ (tag txt t : String) (cs extra : List Xml), elemsByTagList t cs ≠ [] →
        getOptionalValue (.el tag txt (cs ++ extra)) t =
          getOptionalValue (.el tag txt cs) t ∧
        getMandatoryValue (.el tag txt (cs ++ extra)) t =
          getMandatoryValue (.el tag txt cs) t) := by
  refine ⟨?_, ?_, ?_⟩
  · intro n nA t htag hhead
    constructor
    · simp only [getOptionalValue, hhead]
    · simp only [getMandatoryValue, hhead, htag]
  · intro n nA t k hhead
    constructor
    · simp only [Ts.getOptionalValue, hhead]
    · simp only [Ts.getMandatoryValue, hhead]
  · intro tag txt t cs extra hne
    cases h1 : elemsByTagList t cs with
    | nil => exact absurd h1 hne
    | cons a as =>
        constructor
        · simp [getOptionalValue, elemsByTag, elemsByTagList_append, h1]
        · simp [getMandatoryValue, elemsByTag, elemsByTagList_append, h1]

/-- Witness for claim C10: concrete nodes differing only after the first
match give identical accessor results. -/
theorem accessorsFirstMatch_witness :
    getOptionalValue nodeTwoMatches "V" = getOptionalValue nodeTwoMatchesAlt "V" ∧
    getMandatoryValue nodeTwoMatches "V" = getMandatoryValue nodeTwoMatchesAlt "V" :=
  accessorsFirstMatch.1 nodeTwoMatches nodeTwoMatchesAlt "V" rfl rfl
end AlsamXml

